import Mathlib

/-!
Verification development for the rental-agent system: an in-process data
store (`mock_db.py`, class `MockDatabase`) plus a tool layer (`agent.py`)
that translates loosely structured natural-language-derived arguments into
deterministic records.

Shallow embedding conventions:
* Python strings are modelled as `PyStr := List Char`; the handful of string
  operations the code uses (`lower`, `strip`, `replace`, `split`, substring
  membership, `int(...)`, SQLite TEXT comparison) are given as executable
  structural-recursion functions so that concrete runs reduce in the kernel.
* SQLite tables are Lean lists of records; `NULL`-able columns are `Option`.
* Python truthiness tests (`if x:`) on optional strings / ints are modelled
  explicitly: `None` and the empty string / zero are falsy.
* Wall-clock inputs (`datetime.now()`, `uuid.uuid4()`, `date.today()`) are
  passed as explicit parameters, since the code treats them as opaque values.
* The SQLite REAL columns hold exact literals in the seed data, so they are
  modelled as `Rat`.
Components not referenced by any verified property (the amenities table and
the amenity/policy/virtual-tour tools, the external LLM plumbing) are out of
scope of this file.
-/

/-- Python strings, modelled as lists of characters. -/
abbrev PyStr := List Char

/-- Coerce a Lean string literal to the `PyStr` model. -/
def pys (s : String) : PyStr := s.data

/-- Lower-case a single ASCII character (model of `str.lower` per character). -/
def lowerChar (c : Char) : Char :=
  if 65 ≤ c.toNat ∧ c.toNat ≤ 90 then Char.ofNat (c.toNat + 32) else c

/-- Model of Python `str.lower()` (ASCII range, which covers every literal the
program manipulates). -/
def pyLower (s : PyStr) : PyStr := s.map lowerChar

/-- Whether `pat` is a prefix of `s` (Boolean, executable). -/
def hasPre (pat s : PyStr) : Bool :=
  match pat, s with
  | [], _ => true
  | _ :: _, [] => false
  | p :: ps, c :: cs => p == c && hasPre ps cs

/-- Model of Python `pat in s` (substring membership). -/
def containsSub (pat : PyStr) : PyStr → Bool
  | [] => hasPre pat []
  | c :: cs => hasPre pat (c :: cs) || containsSub pat cs

/-- Fuel-driven worker for `pyReplace` (structural recursion on the fuel so
that the kernel can evaluate it). -/
def replaceGo (pat rep : PyStr) : Nat → PyStr → PyStr
  | _, [] => []
  | 0, s => s
  | n + 1, c :: cs =>
      if hasPre pat (c :: cs) then rep ++ replaceGo pat rep n ((c :: cs).drop pat.length)
      else c :: replaceGo pat rep n cs

/-- Model of Python `s.replace(pat, rep)` for a non-empty pattern: replaces
every occurrence, scanning left to right. -/
def pyReplace (s pat rep : PyStr) : PyStr := replaceGo pat rep s.length s

/-- Fuel-driven worker for `pySplit`. `cur` is the current fragment, reversed. -/
def splitGo (pat : PyStr) : Nat → PyStr → PyStr → List PyStr
  | _, [], cur => [cur.reverse]
  | 0, s, cur => [cur.reverse ++ s]
  | n + 1, c :: cs, cur =>
      if hasPre pat (c :: cs) then cur.reverse :: splitGo pat n ((c :: cs).drop pat.length) []
      else splitGo pat n cs (c :: cur)

/-- Model of Python `s.split(pat)` for a non-empty separator. -/
def pySplit (s pat : PyStr) : List PyStr := splitGo pat s.length s []

/-- Whitespace test used by Python `str.strip()`. -/
def isPySpace (c : Char) : Bool :=
  c.toNat == 32 || c.toNat == 9 || c.toNat == 10 || c.toNat == 11 ||
  c.toNat == 12 || c.toNat == 13

/-- Model of Python `s.strip()`. -/
def pyStrip (s : PyStr) : PyStr :=
  ((s.dropWhile isPySpace).reverse.dropWhile isPySpace).reverse

/-- Parse a non-empty all-digit string into a natural number. -/
def digitsToNat : PyStr → Option Nat
  | [] => none
  | [c] => if 48 ≤ c.toNat ∧ c.toNat ≤ 57 then some (c.toNat - 48) else none
  | c :: cs =>
      if 48 ≤ c.toNat ∧ c.toNat ≤ 57 then
        (digitsToNat cs).map (fun n => (c.toNat - 48) * 10 ^ cs.length + n)
      else none

/-- Model of Python `int(s)`: optional surrounding whitespace, optional sign,
then at least one digit; anything else raises `ValueError` (here: `none`). -/
def pyInt (s : PyStr) : Option Int :=
  match pyStrip s with
  | '-' :: rest => (digitsToNat rest).map (fun n => -(n : Int))
  | '+' :: rest => (digitsToNat rest).map (fun n => (n : Int))
  | t => (digitsToNat t).map (fun n => (n : Int))

/-- The decimal digit character for `n < 10`. -/
def digitChar (n : Nat) : Char := Char.ofNat (48 + n)

/-- Fuel-driven decimal printing of a natural number. -/
def natToCharsGo : Nat → Nat → PyStr
  | 0, _ => []
  | f + 1, n => if n < 10 then [digitChar n] else natToCharsGo f (n / 10) ++ [digitChar (n % 10)]

/-- Decimal representation of a natural number (model of Python `str(n)`). -/
def natToChars (n : Nat) : PyStr := natToCharsGo (n + 1) n

/-- Model of Python `str(i)` / `f"{i}"` for an int. -/
def intToChars (i : Int) : PyStr :=
  if i < 0 then '-' :: natToChars i.natAbs else natToChars i.toNat

/-- Model of Python `f"{i:02d}"`: zero-pad a one-digit non-negative int. -/
def pyFmt02 (i : Int) : PyStr :=
  if 0 ≤ i ∧ i < 10 then '0' :: natToChars i.toNat else intToChars i

/-- SQLite BINARY comparison of two TEXT values (`memcmp` order; on the ASCII
data of this program it agrees with byte order), as used by the
`available_date <= ?` filter. -/
def strLe : PyStr → PyStr → Bool
  | [], _ => true
  | _ :: _, [] => false
  | a :: as, b :: bs =>
      if a.toNat < b.toNat then true
      else if b.toNat < a.toNat then false
      else strLe as bs

/-- Python truthiness of an optional string (`None` and `""` are falsy). -/
def truthyOS : Option PyStr → Bool
  | none => false
  | some s => !s.isEmpty

/-- Python truthiness of an optional int (`None` and `0` are falsy). -/
def truthyOI : Option Int → Bool
  | none => false
  | some n => !(n == 0)


/-- A row of the `apartments` table (`mock_db.py`, `_create_tables`). -/
structure Apartment where
  id : Int
  unit_number : PyStr
  apartment_type : PyStr
  floor_plan : PyStr
  square_feet : Nat
  bedrooms : Nat
  bathrooms : Rat
  rent_amount : Rat
  is_available : Bool
  available_date : PyStr
  features : PyStr
deriving DecidableEq, Repr

/-- A row of the `users` table.  The surrogate `id INTEGER PRIMARY KEY` column
is never read or written by the code and is omitted; `has_pets` is stored as
the SQLite INTEGER `0`/`1`/`NULL` that `create_user`/`update_user` bind. -/
structure UserRow where
  user_id : PyStr
  name : Option PyStr
  phone : Option PyStr
  email : Option PyStr
  move_in_date : Option PyStr
  preferred_apartment_type : Option PyStr
  has_pets : Option Nat
  income : Option Rat
  credit_score : Option Int
  notes : Option PyStr
  created_at : PyStr
  last_contact : Option PyStr
deriving DecidableEq, Repr

/-- The dict returned by `get_user`: the `users` row with `has_pets`
converted from INTEGER to boolean. -/
structure UserView where
  user_id : PyStr
  name : Option PyStr
  phone : Option PyStr
  email : Option PyStr
  move_in_date : Option PyStr
  preferred_apartment_type : Option PyStr
  has_pets : Option Bool
  income : Option Rat
  credit_score : Option Int
  notes : Option PyStr
  created_at : PyStr
  last_contact : Option PyStr
deriving DecidableEq, Repr

/-- A row of the `tours` table. -/
structure Tour where
  id : Int
  user_id : PyStr
  tour_date : PyStr
  tour_time : PyStr
  apartment_id : Option Int
  is_virtual : Bool
  status : PyStr
  notes : Option PyStr
deriving DecidableEq, Repr

/-- The in-memory store (class `MockDatabase`): the tables the verified
claims touch. -/
structure MockDatabase where
  apartments : List Apartment
  users : List UserRow
  tours : List Tour
deriving DecidableEq, Repr

/-- Seed row 101 from `_populate_initial_data`. -/
def apt101 : Apartment :=
  ⟨101, pys "101", pys "1_bedroom", pys "Maple", 750, 1, 1, 1600, true,
   pys "2025-07-01", pys "Corner unit, extra windows"⟩

/-- Seed row 102. -/
def apt102 : Apartment :=
  ⟨102, pys "102", pys "1_bedroom", pys "Maple", 750, 1, 1, 1600, true,
   pys "2025-07-15", pys "Updated kitchen"⟩

/-- Seed row 103. -/
def apt103 : Apartment :=
  ⟨103, pys "103", pys "1_bedroom", pys "Cedar", 780, 1, 1, 1650, false,
   pys "2025-06-01", pys "Balcony, park view"⟩

/-- Seed row 201. -/
def apt201 : Apartment :=
  ⟨201, pys "201", pys "1_bedroom", pys "Cedar", 780, 1, 1, 1650, false,
   pys "2025-08-01", pys "Extra closet space"⟩

/-- Seed row 301. -/
def apt301 : Apartment :=
  ⟨301, pys "301", pys "2_bedroom", pys "Birch", 1050, 2, 2, 2100, true,
   pys "2025-07-01", pys "Corner unit, city view"⟩

/-- Seed row 302. -/
def apt302 : Apartment :=
  ⟨302, pys "302", pys "2_bedroom", pys "Birch", 1050, 2, 2, 2100, true,
   pys "2025-07-01", pys "Updated bathrooms"⟩

/-- Seed row 401. -/
def apt401 : Apartment :=
  ⟨401, pys "401", pys "2_bedroom", pys "Aspen", 1100, 2, 2, 2200, false,
   pys "2025-06-15", pys "Premium finishes"⟩

/-- Seed row 402. -/
def apt402 : Apartment :=
  ⟨402, pys "402", pys "2_bedroom", pys "Aspen", 1100, 2, 2, 2200, false,
   pys "2025-09-01", pys "Penthouse floor"⟩

/-- The store as `MockDatabase.__init__` leaves it: eight apartment rows, no
users, no tours (the amenities table is outside the verified claims). -/
def seedDb : MockDatabase :=
  ⟨[apt101, apt102, apt103, apt201, apt301, apt302, apt401, apt402], [], []⟩

/-- `MockDatabase.get_available_apartments(apartment_type, move_in_date)`:
`WHERE is_available = 1`, with the type filter and the
`available_date <= move_in_date` filter each added only when the argument is
truthy. -/
def get_available_apartments (db : MockDatabase)
    (apartment_type move_in_date : Option PyStr) : List Apartment :=
  db.apartments.filter (fun a =>
    a.is_available &&
    (match apartment_type with
     | none => true
     | some t => if t.isEmpty then true else a.apartment_type == t) &&
    (match move_in_date with
     | none => true
     | some d => if d.isEmpty then true else strLe a.available_date d))

/-- `MockDatabase.get_apartment_by_id(apartment_id)`; the empty dict of the
not-found case is modelled as `none`. -/
def get_apartment_by_id (db : MockDatabase) (apartment_id : Int) : Option Apartment :=
  db.apartments.find? (fun a => a.id == apartment_id)

/-- The optional creation fields of `MockDatabase.create_user`. -/
structure CreateFields where
  name : Option PyStr
  phone : Option PyStr
  email : Option PyStr
  move_in_date : Option PyStr
  preferred_apartment_type : Option PyStr
  has_pets : Option Bool
deriving DecidableEq, Repr

/-- `MockDatabase.create_user`: inserts a fresh row whose `created_at` and
`last_contact` are both the current time, encoding `has_pets` by
`1 if has_pets else 0 if has_pets is not None else None`.  The generated
`uuid.uuid4()` string and `datetime.now().isoformat()` are the explicit
`uuid`/`now` parameters. -/
def create_user (db : MockDatabase) (uuid now : PyStr) (f : CreateFields) :
    PyStr × MockDatabase :=
  let row : UserRow :=
    ⟨uuid, f.name, f.phone, f.email, f.move_in_date, f.preferred_apartment_type,
     (match f.has_pets with
      | some true => some 1
      | some false => some 0
      | none => none),
     none, none, none, now, some now⟩
  (uuid, ⟨db.apartments, db.users ++ [row], db.tours⟩)

/-- The `**kwargs` of `MockDatabase.update_user`: one optional value per
recognized column, plus the list of unrecognized key names (whose values the
code never reads). -/
structure UpdateKwargs where
  name : Option PyStr
  phone : Option PyStr
  email : Option PyStr
  move_in_date : Option PyStr
  preferred_apartment_type : Option PyStr
  income : Option Rat
  credit_score : Option Int
  notes : Option PyStr
  has_pets : Option Bool
  extra_keys : List PyStr
deriving DecidableEq, Repr

/-- The kwargs dict with no entries at all. -/
def emptyKwargs : UpdateKwargs :=
  ⟨none, none, none, none, none, none, none, none, none, []⟩

/-- Whether the kwargs dict carries at least one allow-listed assignment,
i.e. whether the generated `set_clause` is non-empty. -/
def recognizedSet (kw : UpdateKwargs) : Bool :=
  kw.name.isSome || kw.phone.isSome || kw.email.isSome || kw.move_in_date.isSome ||
  kw.preferred_apartment_type.isSome || kw.income.isSome || kw.credit_score.isSome ||
  kw.notes.isSome || kw.has_pets.isSome

/-- Whether the kwargs dict is empty (`if not kwargs`). -/
def kwargsEmpty (kw : UpdateKwargs) : Bool :=
  !recognizedSet kw && kw.extra_keys.isEmpty

/-- Overwrite-if-supplied for one column of the UPDATE `SET` clause. -/
def updOpt {α : Type} (newv old : Option α) : Option α :=
  match newv with
  | some v => some v
  | none => old

/-- The effect of the generated `UPDATE ... SET` statement on one matching
row: supplied allow-listed columns are overwritten, `has_pets` is encoded as
`1 if value else 0`, and `last_contact` is set to the current time. -/
def applyUpdate (kw : UpdateKwargs) (now : PyStr) (r : UserRow) : UserRow :=
  ⟨r.user_id, updOpt kw.name r.name, updOpt kw.phone r.phone, updOpt kw.email r.email,
   updOpt kw.move_in_date r.move_in_date,
   updOpt kw.preferred_apartment_type r.preferred_apartment_type,
   (match kw.has_pets with
    | some b => some (if b then 1 else 0)
    | none => r.has_pets),
   updOpt kw.income r.income, updOpt kw.credit_score r.credit_score,
   updOpt kw.notes r.notes, r.created_at, some now⟩

/-- `MockDatabase.update_user(user_id, **kwargs)`: returns `False` on an
empty kwargs dict or when no allow-listed key is present; otherwise runs the
UPDATE over the rows whose `user_id` matches and reports
`cursor.rowcount > 0`.  The function is total: no code path raises. -/
def update_user (db : MockDatabase) (user_id : PyStr) (kw : UpdateKwargs)
    (now : PyStr) : Bool × MockDatabase :=
  if kwargsEmpty kw then (false, db)
  else if !recognizedSet kw then (false, db)
  else
    let users := db.users.map (fun r => if r.user_id == user_id then applyUpdate kw now r else r)
    let rowcount := db.users.countP (fun r => r.user_id == user_id)
    (decide (0 < rowcount), ⟨db.apartments, users, db.tours⟩)

/-- INTEGER-to-boolean conversion applied by `get_user` to `has_pets`. -/
def rowToView (r : UserRow) : UserView :=
  ⟨r.user_id, r.name, r.phone, r.email, r.move_in_date, r.preferred_apartment_type,
   r.has_pets.map (fun n => !(n == 0)), r.income, r.credit_score, r.notes,
   r.created_at, r.last_contact⟩

/-- `MockDatabase.get_user(user_id)`: first row whose `user_id` matches, with
`has_pets` converted to boolean; the empty dict of the not-found case is
modelled as `none`. -/
def get_user (db : MockDatabase) (user_id : PyStr) : Option UserView :=
  (db.users.find? (fun r => r.user_id == user_id)).map rowToView

/-- `MockDatabase.schedule_tour`: inserts a row with status fixed to
`"Scheduled"` and returns `cursor.lastrowid` (for this append-only table,
one more than the largest existing rowid).  The exception handler that
returns `-1` guards sqlite errors that cannot arise in this embedded model,
so the insert always succeeds here. -/
def schedule_tour (db : MockDatabase) (user_id tour_date tour_time : PyStr)
    (apartment_id : Option Int) (is_virtual : Bool) (notes : Option PyStr) :
    Int × MockDatabase :=
  let tid := (db.tours.foldl (fun m t => max m t.id) 0) + 1
  (tid, ⟨db.apartments, db.users,
         db.tours ++ [⟨tid, user_id, tour_date, tour_time, apartment_id, is_virtual,
                       pys "Scheduled", notes⟩]⟩)

/-- One value of the dict returned by `get_pricing_info`. -/
structure PricingEntry where
  min_rent : Rat
  max_rent : Rat
  avg_rent : Rat
  count : Nat
deriving DecidableEq, Repr

/-- SQL aggregate `{MIN, MAX, AVG, COUNT}` of `rent_amount` over one
(non-empty) group of rows. -/
def aggFor : List Apartment → PricingEntry
  | [] => ⟨0, 0, 0, 0⟩
  | a :: as =>
      ⟨(as.map Apartment.rent_amount).foldl min a.rent_amount,
       (as.map Apartment.rent_amount).foldl max a.rent_amount,
       (a.rent_amount + (as.map Apartment.rent_amount).sum) / ((1 + as.length : Nat) : Rat),
       1 + as.length⟩

/-- First-occurrence deduplication (the order in which `GROUP BY
apartment_type` groups arise from storage order). -/
def dedupGo (seen : List PyStr) : List PyStr → List PyStr
  | [] => []
  | x :: xs => if seen.contains x then dedupGo seen xs else x :: dedupGo (x :: seen) xs

/-- `MockDatabase.get_pricing_info(apartment_type)`: per-type
`{min_rent, max_rent, avg_rent, count}` over ALL rows of the type
(availability is not filtered), optionally restricted to one truthy type. -/
def get_pricing_info (db : MockDatabase) (apartment_type : Option PyStr) :
    List (PyStr × PricingEntry) :=
  let rows := db.apartments.filter (fun a =>
    match apartment_type with
    | none => true
    | some t => if t.isEmpty then true else a.apartment_type == t)
  let types := dedupGo [] (rows.map Apartment.apartment_type)
  types.map (fun t => (t, aggFor (rows.filter (fun a => a.apartment_type == t))))


/-- The `user_info` snapshot kept in session state.  Python stores dicts with
slightly different key sets on the create / update / get paths; the model is
one record whose absent keys are `none` (`formatted_move_in_date` only ever
arises on the create path, `created_at`/`last_contact` only from `get`). -/
structure SessionUserInfo where
  user_id : Option PyStr
  name : Option PyStr
  phone : Option PyStr
  email : Option PyStr
  move_in_date : Option PyStr
  formatted_move_in_date : Option PyStr
  preferred_apartment_type : Option PyStr
  has_pets : Option Bool
  income : Option Rat
  credit_score : Option Int
  notes : Option PyStr
  created_at : Option PyStr
  last_contact : Option PyStr
deriving DecidableEq, Repr

/-- The `user_info` snapshot with no keys. -/
def emptyUserInfo : SessionUserInfo :=
  ⟨none, none, none, none, none, none, none, none, none, none, none, none, none⟩

/-- The record written to `tool_context.state['last_apartment_search']`. -/
structure LastSearch where
  apartment_type : Option PyStr
  move_in_date : Option PyStr
  formatted_date : Option PyStr
  result_count : Nat
  counts_by_type : List (PyStr × Nat)
deriving DecidableEq, Repr

/-- The record written to `tool_context.state['last_scheduled_tour']`. -/
structure LastTour where
  tour_id : Int
  tour_date : PyStr
  tour_time : PyStr
  apartment_id : Option Int
  apartment_type : Option PyStr
  is_virtual : Bool
deriving DecidableEq, Repr

/-- The session-state bag, restricted to the keys the verified tools touch;
a `none` field models an absent key. -/
structure SessionState where
  current_user_id : Option PyStr
  user_info : Option SessionUserInfo
  last_apartment_search : Option LastSearch
  last_scheduled_tour : Option LastTour
deriving DecidableEq, Repr

/-- A session-state bag with no keys. -/
def emptySession : SessionState := ⟨none, none, none, none⟩

/-- The natural-language move-in-date lookup shared verbatim by
`query_apartments` (agent.py lines 116-126) and `manage_user` (lines
288-299): `"july"`/`"august"` (case-insensitively) map to fixed dates and
every other truthy literal leaves the formatted date `None`.  (The two
`except` handlers differ textually but both guard a `try` body that cannot
raise on a string argument.) -/
def formatMoveInDate (move_in_date : Option PyStr) : Option PyStr :=
  match move_in_date with
  | none => none
  | some s =>
      if s.isEmpty then none
      else if pyLower s == pys "july" then some (pys "2025-07-01")
      else if pyLower s == pys "august" then some (pys "2025-08-01")
      else none

/-- Insertion-ordered dict increment for the counts-by-type summaries. -/
def bumpCount (m : List (PyStr × Nat)) (t : PyStr) : List (PyStr × Nat) :=
  match m with
  | [] => [(t, 1)]
  | (k, v) :: rest => if k == t then (k, v + 1) :: rest else (k, v) :: bumpCount rest t

/-- Count of apartments per type, in first-seen order. -/
def countsByType (l : List Apartment) : List (PyStr × Nat) :=
  l.foldl (fun m a => bumpCount m a.apartment_type) []

/-- The success payload of `query_apartments`. -/
structure QueryApartmentsResult where
  available_count : Nat
  counts_by_type : List (PyStr × Nat)
  apartments : List Apartment
deriving DecidableEq, Repr

/-- Tool `query_apartments(apartment_type, move_in_date)`: maps the move-in
hint through `formatMoveInDate`, queries the store with the formatted date,
and records the search parameters in session state.  Always reports
status success. -/
def query_apartments (db : MockDatabase) (st : SessionState)
    (apartment_type move_in_date : Option PyStr) :
    QueryApartmentsResult × SessionState :=
  let formatted_date := formatMoveInDate move_in_date
  let apartments := get_available_apartments db apartment_type formatted_date
  let counts := countsByType apartments
  (⟨apartments.length, counts, apartments⟩,
   ⟨st.current_user_id, st.user_info,
    some ⟨apartment_type, move_in_date, formatted_date, apartments.length, counts⟩,
    st.last_scheduled_tour⟩)

/-- The optional arguments of tool `manage_user` besides the action. -/
structure ManageArgs where
  action : PyStr
  user_id : Option PyStr
  name : Option PyStr
  phone : Option PyStr
  email : Option PyStr
  move_in_date : Option PyStr
  preferred_apartment_type : Option PyStr
  has_pets : Option Bool
  income : Option Rat
  credit_score : Option Int
  notes : Option PyStr
deriving DecidableEq, Repr

/-- Keep an optional string argument only when truthy. -/
def keepTruthyS (o : Option PyStr) : Option PyStr :=
  match o with
  | none => none
  | some s => if s.isEmpty then none else some s

/-- Keep an optional float argument only when truthy (non-zero). -/
def keepTruthyQ (o : Option Rat) : Option Rat :=
  match o with
  | none => none
  | some v => if v == 0 then none else some v

/-- Keep an optional int argument only when truthy (non-zero). -/
def keepTruthyZ (o : Option Int) : Option Int :=
  match o with
  | none => none
  | some v => if v == 0 then none else some v

/-- The `update_fields` dict built by the update branch of `manage_user`
(agent.py lines 350-368): every argument is included only when truthy,
except `has_pets`, which is included whenever it `is not None`;
`move_in_date` is included only when the pre-computed `formatted_date`
is truthy. -/
def buildUpdateFields (args : ManageArgs) (formatted_date : Option PyStr) : UpdateKwargs :=
  ⟨keepTruthyS args.name, keepTruthyS args.phone, keepTruthyS args.email,
   keepTruthyS formatted_date, keepTruthyS args.preferred_apartment_type,
   keepTruthyQ args.income, keepTruthyZ args.credit_score, keepTruthyS args.notes,
   args.has_pets, []⟩

/-- `dict.update(update_fields)` on the session `user_info` snapshot. -/
def mergeUpdateFields (ui : SessionUserInfo) (kw : UpdateKwargs) : SessionUserInfo :=
  ⟨ui.user_id, updOpt kw.name ui.name, updOpt kw.phone ui.phone,
   updOpt kw.email ui.email, updOpt kw.move_in_date ui.move_in_date,
   ui.formatted_move_in_date,
   updOpt kw.preferred_apartment_type ui.preferred_apartment_type,
   updOpt kw.has_pets ui.has_pets, updOpt kw.income ui.income,
   updOpt kw.credit_score ui.credit_score, updOpt kw.notes ui.notes,
   ui.created_at, ui.last_contact⟩

/-- The snapshot stored by the get branch: the store's current record. -/
def snapshotOfUser (u : UserView) : SessionUserInfo :=
  ⟨some u.user_id, u.name, u.phone, u.email, u.move_in_date, none,
   u.preferred_apartment_type, u.has_pets, u.income, u.credit_score, u.notes,
   some u.created_at, u.last_contact⟩

/-- The response payload of tool `manage_user`. -/
inductive ManageResult where
  | createSuccess (user_id : PyStr) (message : PyStr)
  | updateSuccess (message : PyStr)
  | getSuccess (user : UserView)
  | errorResult (message : PyStr)
deriving DecidableEq, Repr

/-- Tool `manage_user(action, ...)`: the create / update / get multi-purpose
prospect operation.  `fresh_id` embeds the `uuid.uuid4()` drawn inside
`create_user` and `now` the `datetime.now().isoformat()` timestamps. -/
def manage_user (db : MockDatabase) (st : SessionState) (args : ManageArgs)
    (fresh_id now : PyStr) : ManageResult × MockDatabase × SessionState :=
  let formatted_date := formatMoveInDate args.move_in_date
  if args.action == pys "create" then
    let created := create_user db fresh_id now
      ⟨args.name, args.phone, args.email, formatted_date,
       args.preferred_apartment_type, args.has_pets⟩
    let user_id := created.1
    if !user_id.isEmpty then
      (ManageResult.createSuccess user_id (pys "User created successfully"), created.2,
       ⟨some user_id,
        some ⟨some user_id, args.name, args.phone, args.email, args.move_in_date,
              formatted_date, args.preferred_apartment_type, args.has_pets,
              none, none, none, none, none⟩,
        st.last_apartment_search, st.last_scheduled_tour⟩)
    else
      (ManageResult.errorResult (pys "Failed to create user"), created.2, st)
  else if args.action == pys "update" then
    let user_id :=
      if truthyOS args.user_id then args.user_id
      else match st.current_user_id with
           | some c => some c
           | none => args.user_id
    if !truthyOS user_id then
      (ManageResult.errorResult (pys "No user ID provided for update"), db, st)
    else
      let uid := user_id.getD []
      let update_fields := buildUpdateFields args formatted_date
      let updated := update_user db uid update_fields now
      if updated.1 then
        let ui :=
          match st.user_info with
          | some ui0 =>
              let merged := mergeUpdateFields ui0 update_fields
              some (if truthyOS args.move_in_date then
                      ⟨merged.user_id, merged.name, merged.phone, merged.email,
                       args.move_in_date, merged.formatted_move_in_date,
                       merged.preferred_apartment_type, merged.has_pets, merged.income,
                       merged.credit_score, merged.notes, merged.created_at,
                       merged.last_contact⟩
                    else merged)
          | none => st.user_info
        (ManageResult.updateSuccess (pys "User updated successfully"), updated.2,
         ⟨st.current_user_id, ui, st.last_apartment_search, st.last_scheduled_tour⟩)
      else
        (ManageResult.errorResult (pys "Failed to update user information"), updated.2, st)
  else if args.action == pys "get" then
    let user_id :=
      if truthyOS args.user_id then args.user_id
      else match st.current_user_id with
           | some c => some c
           | none => args.user_id
    if !truthyOS user_id then
      (ManageResult.errorResult (pys "No user ID provided to retrieve user information"),
       db, st)
    else
      let uid := user_id.getD []
      match get_user db uid with
      | some u =>
          (ManageResult.getSuccess u, db,
           ⟨st.current_user_id, some (snapshotOfUser u), st.last_apartment_search,
            st.last_scheduled_tour⟩)
      | none =>
          (ManageResult.errorResult (pys "No user found with ID " ++ uid), db, st)
  else
    (ManageResult.errorResult (pys "Unknown action: " ++ args.action), db, st)

/-- The date lookup of `schedule_property_tour` (agent.py lines 456-472):
`"tomorrow"` / `"next week"` resolve against the wall clock (passed here as
the `tomorrow` / `next_week` parameters); any other literal is passed through
unparsed.  The `except` branch is dead (the `try` body cannot raise on a
string), so the result is total. -/
def formatTourDate (tour_date tomorrow next_week : PyStr) : PyStr :=
  if pyLower tour_date == pys "tomorrow" then tomorrow
  else if pyLower tour_date == pys "next week" then next_week
  else tour_date

/-- The time normalization of `schedule_property_tour` (agent.py lines
474-505).  A trailing-`pm` literal has `"pm"` removed, is stripped and split
on `":"`; the hour is bumped by 12 unless it is 12 and is printed unpadded;
a `-am` literal maps hour 12 to 0 and prints the hour with `f"{hour:02d}"`;
in both cases an optional minute component is carried over verbatim.  Any
other literal is passed through unchanged.  `none` models the `ValueError`
of `int(...)` that the tool turns into a parse-error payload. -/
def formatTourTime (tour_time : PyStr) : Option PyStr :=
  let lowered := pyLower tour_time
  if containsSub (pys "pm") lowered then
    let cleaned := pyStrip (pyReplace lowered (pys "pm") (pys ""))
    match pySplit cleaned (pys ":") with
    | [h] =>
        (pyInt h).map (fun hour =>
          intToChars (if hour == 12 then hour else hour + 12) ++ pys ":00")
    | h :: m :: _ =>
        (pyInt h).map (fun hour =>
          intToChars (if hour == 12 then hour else hour + 12) ++ pys ":" ++ m)
    | [] => none
  else if containsSub (pys "am") lowered then
    let cleaned := pyStrip (pyReplace lowered (pys "am") (pys ""))
    match pySplit cleaned (pys ":") with
    | [h] =>
        (pyInt h).map (fun hour =>
          pyFmt02 (if hour == 12 then 0 else hour) ++ pys ":00")
    | h :: m :: _ =>
        (pyInt h).map (fun hour =>
          pyFmt02 (if hour == 12 then 0 else hour) ++ pys ":" ++ m)
    | [] => none
  else some tour_time

/-- The arguments of tool `schedule_property_tour`. -/
structure TourArgs where
  tour_date : PyStr
  tour_time : PyStr
  is_virtual : Bool
  apartment_id : Option Int
  apartment_type : Option PyStr
  notes : Option PyStr
deriving DecidableEq, Repr

/-- The denormalized unit summary returned with a successful booking. -/
structure ApartmentDetails where
  unit_number : PyStr
  apartment_type : PyStr
  floor_plan : PyStr
  bedrooms : Nat
  bathrooms : Rat
deriving DecidableEq, Repr

/-- The response payload of tool `schedule_property_tour`. -/
inductive TourResult where
  | success (tour_id : Int) (tour_date tour_time : PyStr) (is_virtual : Bool)
            (apartment_details : Option ApartmentDetails)
  | errorResult (message : PyStr)
deriving DecidableEq, Repr

/-- Tool `schedule_property_tour`: requires a truthy `current_user_id` in
session state (else an immediate error with no store access), resolves the
date and time literals, picks the first currently-available unit of the
requested type when no explicit id is given, books the tour, and reports the
booking id plus a unit summary. -/
def schedule_property_tour (db : MockDatabase) (st : SessionState)
    (args : TourArgs) (tomorrow next_week : PyStr) :
    TourResult × MockDatabase × SessionState :=
  if !truthyOS st.current_user_id then
    (TourResult.errorResult (pys "No user identified. Please provide user information first."),
     db, st)
  else
    let user_id := st.current_user_id.getD []
    let formatted_date := formatTourDate args.tour_date tomorrow next_week
    match formatTourTime args.tour_time with
    | none =>
        (TourResult.errorResult (pys "Could not parse tour time: " ++ args.tour_time), db, st)
    | some formatted_time =>
        let apartment_id :=
          if !truthyOI args.apartment_id && truthyOS args.apartment_type then
            match get_available_apartments db args.apartment_type none with
            | [] => args.apartment_id
            | a :: _ => some a.id
          else args.apartment_id
        let booked := schedule_tour db user_id formatted_date formatted_time
          apartment_id args.is_virtual args.notes
        let tour_id := booked.1
        if 0 < tour_id then
          let apartment_details :=
            if truthyOI apartment_id then
              match get_apartment_by_id db (apartment_id.getD 0) with
              | some a =>
                  some (⟨a.unit_number, a.apartment_type, a.floor_plan, a.bedrooms,
                         a.bathrooms⟩ : ApartmentDetails)
              | none => none
            else none
          (TourResult.success tour_id formatted_date formatted_time args.is_virtual
             apartment_details, booked.2,
           ⟨st.current_user_id, st.user_info, st.last_apartment_search,
            some ⟨tour_id, formatted_date, formatted_time, apartment_id,
                  args.apartment_type, args.is_virtual⟩⟩)
        else
          (TourResult.errorResult (pys "Failed to schedule tour"), booked.2, st)


/-- A stored prospect used by concrete runs of the update operation. -/
def userRowW : UserRow :=
  ⟨pys "u1", some (pys "Mark"), none, none, none, none, none, none, none, none,
   pys "2025-06-01T09:00:00", some (pys "2025-06-01T09:00:00")⟩

/-- The seed store with one prospect on file. -/
def dbW : MockDatabase := ⟨seedDb.apartments, [userRowW], []⟩

/-- A one-field update kwargs dict (`name` only). -/
def kwW : UpdateKwargs :=
  ⟨some (pys "Mark Smith"), none, none, none, none, none, none, none, none, []⟩

/-- Concrete creation fields for a roundtrip run. -/
def cfW : CreateFields :=
  ⟨some (pys "Mark"), none, none, some (pys "2025-07-01"), some (pys "1_bedroom"), some true⟩

/-- Concrete `manage_user` arguments: create with a non-july/august move-in
literal. -/
def maW : ManageArgs :=
  ⟨pys "create", none, some (pys "Mark"), none, none, some (pys "September"),
   none, none, none, none, none⟩

/-- Concrete `manage_user` arguments whose updatable values are all falsy. -/
def maW2 : ManageArgs :=
  ⟨pys "update", some (pys "u1"), some (pys ""), some (pys ""), some (pys ""),
   none, none, some false, some 0, some 0, some (pys "")⟩

/-- Concrete tour-scheduling arguments (no unit id, a type with no available
units in the seed data). -/
def tourArgsW : TourArgs :=
  ⟨pys "2025-07-02", pys "10:00", false, none, some (pys "3_bedroom"), none⟩

/-- Concrete tour-scheduling arguments for the missing-prospect run. -/
def tourArgsW2 : TourArgs :=
  ⟨pys "tomorrow", pys "3pm", false, none, some (pys "1_bedroom"), none⟩

/-- A session state holding a current prospect identifier. -/
def sessionW : SessionState := ⟨some (pys "u1"), none, none, none⟩

theorem isEmpty_false_of_ne_nil {s : PyStr} (h : s ≠ []) : s.isEmpty = false := by
  cases s with
  | nil => exact absurd rfl h
  | cons c cs => rfl

theorem truthyOS_some {s : PyStr} (h : s ≠ []) : truthyOS (some s) = true := by
  simp [truthyOS, isEmpty_false_of_ne_nil h]

theorem le_foldl_max_tour (l : List Tour) (a : Int) :
    a ≤ l.foldl (fun m t => max m t.id) a := by
  induction l generalizing a with
  | nil => exact le_refl a
  | cons t ts ih => exact le_trans (le_max_left a t.id) (ih (max a t.id))

theorem get_user_create_fresh (db : MockDatabase) (uuid now : PyStr) (f : CreateFields)
    (hfresh : ∀ r ∈ db.users, r.user_id ≠ uuid) :
    get_user (create_user db uuid now f).2 uuid = some
      ⟨uuid, f.name, f.phone, f.email, f.move_in_date, f.preferred_apartment_type,
       f.has_pets, none, none, none, now, some now⟩ := by
  simp only [get_user, create_user, List.find?_append]
  rw [List.find?_eq_none.mpr (fun x hx => by simp [hfresh x hx])]
  rw [Option.none_or, List.find?_cons_of_pos _ (by simp)]
  simp only [Option.map_some', rowToView]
  rcases f.has_pets with _ | b
  · rfl
  · cases b <;> rfl

/-- C6: invoking the tour-scheduling tool with no current-prospect identifier
in session state returns the error payload immediately; the store (hence the
booking table) and the session state are untouched, independently of every
argument — in particular no date/time parsing or unit selection can have any
effect. -/
theorem schedule_property_tour_requires_user (db : MockDatabase) (st : SessionState)
    (args : TourArgs) (tomorrow next_week : PyStr)
    (h : st.current_user_id = none) :
    schedule_property_tour db st args tomorrow next_week =
      (TourResult.errorResult (pys "No user identified. Please provide user information first."),
       db, st) := by
  simp [schedule_property_tour, h, truthyOS]

/-- Witness for C6 at a concrete run on the seed store. -/
theorem schedule_property_tour_requires_user_witness :
    schedule_property_tour seedDb emptySession tourArgsW2 (pys "2025-06-29") (pys "2025-07-05") =
      (TourResult.errorResult (pys "No user identified. Please provide user information first."),
       seedDb, emptySession) :=
  schedule_property_tour_requires_user seedDb emptySession tourArgsW2
    (pys "2025-06-29") (pys "2025-07-05") rfl

/-- C1 (counterexample): the claim says a move-in hint other than
"july"/"august" is passed through unparsed as the availability-date bound;
the code instead leaves the bound `None`.  With hint `"2025-06-10"` the tool
reports the two unbounded available 1-bedroom units although no 1-bedroom
unit is available by that date, and the computed bound is `none`, not the
literal. -/
theorem query_apartments_bound_counterexample :
    formatMoveInDate (some (pys "2025-06-10")) = none ∧
    (query_apartments seedDb emptySession (some (pys "1_bedroom"))
      (some (pys "2025-06-10"))).1.available_count = 2 ∧
    (get_available_apartments seedDb (some (pys "1_bedroom"))
      (some (pys "2025-06-10"))).length = 0 := by
  refine ⟨by decide, by decide, by decide⟩

/-- C1 (amended): `"july"`/`"august"` (case-insensitively) map to the fixed
dates `2025-07-01`/`2025-08-01`; any other hint literal is silently
discarded, so the store's available-units query receives no availability-date
bound at all; the tool queries the store exactly with the mapped bound. -/
theorem query_apartments_move_in_mapping (db : MockDatabase) (st : SessionState)
    (t : Option PyStr) (s : PyStr) :
    (pyLower s = pys "july" → formatMoveInDate (some s) = some (pys "2025-07-01")) ∧
    (pyLower s = pys "august" → formatMoveInDate (some s) = some (pys "2025-08-01")) ∧
    (pyLower s ≠ pys "july" → pyLower s ≠ pys "august" →
      formatMoveInDate (some s) = none) ∧
    (query_apartments db st t (some s)).1.apartments
      = get_available_apartments db t (formatMoveInDate (some s)) := by
  refine ⟨?_, ?_, ?_, rfl⟩
  · intro h
    cases s with
    | nil => exact absurd h (by decide)
    | cons c cs => simp [formatMoveInDate, h]
  · intro h
    cases s with
    | nil => exact absurd h (by decide)
    | cons c cs =>
        simp [formatMoveInDate, h]
        decide
  · intro h1 h2
    simp [formatMoveInDate, h1, h2]

/-- Witness for C1 at concrete hints. -/
theorem query_apartments_move_in_mapping_witness :
    formatMoveInDate (some (pys "July")) = some (pys "2025-07-01") ∧
    formatMoveInDate (some (pys "September")) = none :=
  ⟨(query_apartments_move_in_mapping seedDb emptySession none (pys "July")).1 (by decide),
   (query_apartments_move_in_mapping seedDb emptySession none (pys "September")).2.2.1
     (by decide) (by decide)⟩

/-- C10: in the `manage_user` update branch, a supplied falsy value — empty
string for name/phone/email/notes, zero income or credit score — is excluded
from the update set (so these fields can never be set to empty/zero through
this tool), while `has_pets` is carried over whenever it is not `None`, so an
explicit `False` is preserved. -/
theorem update_falsy_fields_excluded (args : ManageArgs) (fd : Option PyStr) :
    (args.name = some (pys "") → (buildUpdateFields args fd).name = none) ∧
    (args.phone = some (pys "") → (buildUpdateFields args fd).phone = none) ∧
    (args.email = some (pys "") → (buildUpdateFields args fd).email = none) ∧
    (args.notes = some (pys "") → (buildUpdateFields args fd).notes = none) ∧
    (args.income = some 0 → (buildUpdateFields args fd).income = none) ∧
    (args.credit_score = some 0 → (buildUpdateFields args fd).credit_score = none) ∧
    (buildUpdateFields args fd).has_pets = args.has_pets := by
  refine ⟨?_, ?_, ?_, ?_, ?_, ?_, rfl⟩ <;> intro h <;>
    simp [buildUpdateFields, keepTruthyS, keepTruthyQ, keepTruthyZ, h, pys]

/-- Witness for C10 at an all-falsy update argument record. -/
theorem update_falsy_fields_excluded_witness :
    (buildUpdateFields maW2 none).name = none ∧
    (buildUpdateFields maW2 none).phone = none ∧
    (buildUpdateFields maW2 none).email = none ∧
    (buildUpdateFields maW2 none).notes = none ∧
    (buildUpdateFields maW2 none).income = none ∧
    (buildUpdateFields maW2 none).credit_score = none ∧
    (buildUpdateFields maW2 none).has_pets = maW2.has_pets := by
  have h := update_falsy_fields_excluded maW2 none
  exact ⟨h.1 rfl, h.2.1 rfl, h.2.2.1 rfl, h.2.2.2.1 rfl, h.2.2.2.2.1 rfl,
         h.2.2.2.2.2.1 rfl, h.2.2.2.2.2.2⟩

/-- C2: the tour-scheduling time normalization.  The four spec examples hold;
for every 12-hour-clock literal built from an hour 1..12, with or without a
two-digit minute component and with either marker, the result is the
24-hour form with 12-hour wraparound (hour 12 becomes 00 for am and stays 12
for pm) preserving the minute component; and every literal containing
neither marker is passed through unchanged. -/
theorem tour_time_normalization :
    formatTourTime (pys "2pm") = some (pys "14:00") ∧
    formatTourTime (pys "12am") = some (pys "00:00") ∧
    formatTourTime (pys "12pm") = some (pys "12:00") ∧
    formatTourTime (pys "9:30am") = some (pys "09:30") ∧
    (∀ h : Fin 13, 1 ≤ h.val →
      formatTourTime (natToChars h.val ++ pys "pm")
        = some ([digitChar ((h.val % 12 + 12) / 10), digitChar ((h.val % 12 + 12) % 10)] ++
            pys ":00") ∧
      formatTourTime (natToChars h.val ++ pys "am")
        = some ([digitChar (h.val % 12 / 10), digitChar (h.val % 12 % 10)] ++ pys ":00") ∧
      (∀ m : Fin 60,
        formatTourTime (natToChars h.val ++ pys ":" ++
            [digitChar (m.val / 10), digitChar (m.val % 10)] ++ pys "pm")
          = some ([digitChar ((h.val % 12 + 12) / 10), digitChar ((h.val % 12 + 12) % 10)] ++
              pys ":" ++ [digitChar (m.val / 10), digitChar (m.val % 10)]) ∧
        formatTourTime (natToChars h.val ++ pys ":" ++
            [digitChar (m.val / 10), digitChar (m.val % 10)] ++ pys "am")
          = some ([digitChar (h.val % 12 / 10), digitChar (h.val % 12 % 10)] ++
              pys ":" ++ [digitChar (m.val / 10), digitChar (m.val % 10)]))) ∧
    (∀ s : PyStr, containsSub (pys "pm") (pyLower s) = false →
      containsSub (pys "am") (pyLower s) = false → formatTourTime s = some s) := by
  refine ⟨by decide, by decide, by decide, by decide, by decide, ?_⟩
  intro s h1 h2
  simp [formatTourTime, h1, h2]

/-- Witness for C2 at hour 3 with minutes 30, plus a marker-free literal. -/
theorem tour_time_normalization_witness :
    (formatTourTime (natToChars (3 : Fin 13).val ++ pys "pm")
      = some ([digitChar (((3 : Fin 13).val % 12 + 12) / 10),
               digitChar (((3 : Fin 13).val % 12 + 12) % 10)] ++ pys ":00")) ∧
    formatTourTime (pys "15:45") = some (pys "15:45") := by
  have h := tour_time_normalization
  exact ⟨(h.2.2.2.2.1 3 (by decide)).1, h.2.2.2.2.2 (pys "15:45") (by decide) (by decide)⟩

/-- C7: reading a prospect back immediately after creating it returns exactly
the supplied fields, with unsupplied fields null and with `created_at` and
`last_contact` both equal to the creation call time. -/
theorem create_user_get_user_roundtrip (db : MockDatabase) (uuid now : PyStr)
    (f : CreateFields) (hfresh : ∀ r ∈ db.users, r.user_id ≠ uuid) :
    (create_user db uuid now f).1 = uuid ∧
    get_user (create_user db uuid now f).2 uuid = some
      ⟨uuid, f.name, f.phone, f.email, f.move_in_date, f.preferred_apartment_type,
       f.has_pets, none, none, none, now, some now⟩ :=
  ⟨rfl, get_user_create_fresh db uuid now f hfresh⟩

/-- Witness for C7 on the seed store. -/
theorem create_user_get_user_roundtrip_witness :
    (create_user seedDb (pys "uuid-1") (pys "2025-06-01T10:00:00") cfW).1 = pys "uuid-1" ∧
    get_user (create_user seedDb (pys "uuid-1") (pys "2025-06-01T10:00:00") cfW).2
        (pys "uuid-1") = some
      ⟨pys "uuid-1", cfW.name, cfW.phone, cfW.email, cfW.move_in_date,
       cfW.preferred_apartment_type, cfW.has_pets, none, none, none,
       pys "2025-06-01T10:00:00", some (pys "2025-06-01T10:00:00")⟩ :=
  create_user_get_user_roundtrip seedDb (pys "uuid-1") (pys "2025-06-01T10:00:00") cfW
    (by simp [seedDb])

/-- C3: updating an existing prospect with a non-empty allow-listed field set
succeeds and changes exactly the supplied fields of exactly that prospect's
record, additionally setting `last_contact` to the call time; every other
field of the record, every other record, and the other tables are left
unchanged. -/
theorem update_user_frame (db : MockDatabase) (uid : PyStr) (kw : UpdateKwargs)
    (now : PyStr)
    (hmem : ∃ r ∈ db.users, r.user_id = uid)
    (hne : recognizedSet kw = true) :
    (update_user db uid kw now).1 = true ∧
    (update_user db uid kw now).2.apartments = db.apartments ∧
    (update_user db uid kw now).2.tours = db.tours ∧
    (update_user db uid kw now).2.users.length = db.users.length ∧
    (∀ (i : Nat) (r : UserRow), db.users[i]? = some r → r.user_id ≠ uid →
        (update_user db uid kw now).2.users[i]? = some r) ∧
    (∀ (i : Nat) (r : UserRow), db.users[i]? = some r → r.user_id = uid →
        ∃ u : UserRow, (update_user db uid kw now).2.users[i]? = some u ∧
          u.user_id = r.user_id ∧ u.created_at = r.created_at ∧
          u.last_contact = some now ∧
          u.name = (match kw.name with | some v => some v | none => r.name) ∧
          u.phone = (match kw.phone with | some v => some v | none => r.phone) ∧
          u.email = (match kw.email with | some v => some v | none => r.email) ∧
          u.move_in_date =
            (match kw.move_in_date with | some v => some v | none => r.move_in_date) ∧
          u.preferred_apartment_type =
            (match kw.preferred_apartment_type with
             | some v => some v | none => r.preferred_apartment_type) ∧
          u.income = (match kw.income with | some v => some v | none => r.income) ∧
          u.credit_score =
            (match kw.credit_score with | some v => some v | none => r.credit_score) ∧
          u.notes = (match kw.notes with | some v => some v | none => r.notes) ∧
          u.has_pets =
            (match kw.has_pets with
             | some b => some (if b then 1 else 0) | none => r.has_pets)) := by
  obtain ⟨n1, p1, e1, m1, a1, i1, c1, t1, hp1, x1⟩ := kw
  have hke : kwargsEmpty ⟨n1, p1, e1, m1, a1, i1, c1, t1, hp1, x1⟩ = false := by
    simp [kwargsEmpty, hne]
  have hstep : update_user db uid ⟨n1, p1, e1, m1, a1, i1, c1, t1, hp1, x1⟩ now
      = (decide (0 < db.users.countP (fun r => r.user_id == uid)),
         ⟨db.apartments,
          db.users.map (fun r =>
            if r.user_id == uid then
              applyUpdate ⟨n1, p1, e1, m1, a1, i1, c1, t1, hp1, x1⟩ now r
            else r),
          db.tours⟩) := by
    simp only [update_user, hke, hne, Bool.not_true]
    rfl
  obtain ⟨r0, hr0, hru0⟩ := hmem
  rw [hstep]
  refine ⟨?_, rfl, rfl, by simp, ?_, ?_⟩
  · simp only [decide_eq_true_eq]
    exact List.countP_pos_iff.mpr ⟨r0, hr0, by simp [hru0]⟩
  · intro i r hi hni
    rw [List.getElem?_map, hi, Option.map_some']
    rw [if_neg (by simp [hni])]
  · intro i r hi hri
    refine ⟨applyUpdate ⟨n1, p1, e1, m1, a1, i1, c1, t1, hp1, x1⟩ now r,
            ?_, rfl, rfl, rfl, ?_, ?_, ?_, ?_, ?_, ?_, ?_, ?_, ?_⟩
    · rw [List.getElem?_map, hi, Option.map_some']
      rw [if_pos (by simp [hri])]
    · cases n1 <;> rfl
    · cases p1 <;> rfl
    · cases e1 <;> rfl
    · cases m1 <;> rfl
    · cases a1 <;> rfl
    · cases i1 <;> rfl
    · cases c1 <;> rfl
    · cases t1 <;> rfl
    · cases hp1 <;> rfl

/-- Witness for C3: a one-field update of the stored prospect `u1`. -/
theorem update_user_frame_witness :
    (update_user dbW (pys "u1") kwW (pys "2025-06-02T10:00:00")).1 = true ∧
    (update_user dbW (pys "u1") kwW (pys "2025-06-02T10:00:00")).2.users.length
      = dbW.users.length := by
  have h := update_user_frame dbW (pys "u1") kwW (pys "2025-06-02T10:00:00")
    ⟨userRowW, by simp [dbW], by decide⟩ (by decide)
  exact ⟨h.1, h.2.2.2.1⟩

/-- C4: the store's prospect-update operation surfaces every expected failure
as the boolean `false`, never as an exception (it is a total function of the
model): an empty kwargs dict is a no-op returning `false`; unrecognized keys
never influence the outcome (they are silently ignored, not an error); an
identifier matching no prospect yields zero rows affected, returned as
`false` with the store unchanged; and whenever an allow-listed field is
applied to a matching row, that row's `last_contact` is refreshed to the
call time. -/
theorem update_user_error_behaviour (db : MockDatabase) (uid : PyStr)
    (kw : UpdateKwargs) (now : PyStr) (ks : List PyStr) :
    update_user db uid emptyKwargs now = (false, db) ∧
    update_user db uid
        ⟨kw.name, kw.phone, kw.email, kw.move_in_date, kw.preferred_apartment_type,
         kw.income, kw.credit_score, kw.notes, kw.has_pets, ks⟩ now
      = update_user db uid
        ⟨kw.name, kw.phone, kw.email, kw.move_in_date, kw.preferred_apartment_type,
         kw.income, kw.credit_score, kw.notes, kw.has_pets, []⟩ now ∧
    ((∀ r ∈ db.users, r.user_id ≠ uid) → update_user db uid kw now = (false, db)) ∧
    (∀ (i : Nat) (r : UserRow), recognizedSet kw = true → db.users[i]? = some r →
      r.user_id = uid →
      ∃ u : UserRow, (update_user db uid kw now).2.users[i]? = some u ∧
        u.last_contact = some now) := by
  refine ⟨rfl, ?_, ?_, ?_⟩
  · by_cases hr : recognizedSet kw = true
    · have hr1 : recognizedSet
          ⟨kw.name, kw.phone, kw.email, kw.move_in_date, kw.preferred_apartment_type,
           kw.income, kw.credit_score, kw.notes, kw.has_pets, ks⟩ = true := hr
      have hr2 : recognizedSet
          ⟨kw.name, kw.phone, kw.email, kw.move_in_date, kw.preferred_apartment_type,
           kw.income, kw.credit_score, kw.notes, kw.has_pets, []⟩ = true := hr
      simp only [update_user, kwargsEmpty, hr1, hr2, Bool.not_true, Bool.false_and]
      rfl
    · have hr0 : recognizedSet kw = false := by
        cases h2 : recognizedSet kw
        · rfl
        · exact absurd h2 hr
      have hr1 : recognizedSet
          ⟨kw.name, kw.phone, kw.email, kw.move_in_date, kw.preferred_apartment_type,
           kw.income, kw.credit_score, kw.notes, kw.has_pets, ks⟩ = false := hr0
      have hr2 : recognizedSet
          ⟨kw.name, kw.phone, kw.email, kw.move_in_date, kw.preferred_apartment_type,
           kw.income, kw.credit_score, kw.notes, kw.has_pets, []⟩ = false := hr0
      simp only [update_user, kwargsEmpty, hr1, hr2, Bool.not_false, Bool.true_and]
      cases hks : ks.isEmpty <;> simp
  · intro hnone
    by_cases h1 : kwargsEmpty kw = true
    · simp only [update_user, h1, if_true]
    · have h1f : kwargsEmpty kw = false := by
        cases h2 : kwargsEmpty kw
        · rfl
        · exact absurd h2 h1
      by_cases h2 : recognizedSet kw = true
      · have hcount : db.users.countP (fun r => r.user_id == uid) = 0 :=
          List.countP_eq_zero.mpr (fun r hr => by simp [hnone r hr])
      
        have hmap : db.users.map
            (fun r => if r.user_id == uid then applyUpdate kw now r else r) = db.users := by
          rw [List.map_congr_left (g := id) ?he, List.map_id]
          case he =>
            intro r hr
            rw [if_neg (by simp [hnone r hr])]
            rfl
        simp only [update_user, h1f, h2, Bool.not_true, Bool.false_eq_true, if_false,
                   hcount, hmap]
        rfl
      · have h2f : recognizedSet kw = false := by
          cases h3 : recognizedSet kw
          · rfl
          · exact absurd h3 h2
        simp only [update_user, h1f, h2f, Bool.not_false, Bool.false_eq_true, if_false,
                   if_true]
  · intro i r hrec hi hri
    obtain ⟨n1, p1, e1, m1, a1, i1, c1, t1, hp1, x1⟩ := kw
    have hke : kwargsEmpty ⟨n1, p1, e1, m1, a1, i1, c1, t1, hp1, x1⟩ = false := by
      simp [kwargsEmpty, hrec]
    refine ⟨applyUpdate ⟨n1, p1, e1, m1, a1, i1, c1, t1, hp1, x1⟩ now r, ?_, rfl⟩
    simp only [update_user, hke, hrec, Bool.not_true, Bool.false_eq_true, if_false]
    rw [List.getElem?_map, hi, Option.map_some']
    rw [if_pos (by simp [hri])]

/-- Witness for C4: empty kwargs and an unknown identifier on a concrete
store. -/
theorem update_user_error_behaviour_witness :
    update_user dbW (pys "u1") emptyKwargs (pys "2025-06-02T10:00:00") = (false, dbW) ∧
    update_user dbW (pys "zz") kwW (pys "2025-06-02T10:00:00") = (false, dbW) := by
  refine ⟨(update_user_error_behaviour dbW (pys "u1") kwW (pys "2025-06-02T10:00:00") []).1,
         (update_user_error_behaviour dbW (pys "zz") kwW (pys "2025-06-02T10:00:00") []).2.2.1
           ?_⟩
  intro r hr
  simp [dbW] at hr
  subst hr
  decide

/-- C9: scheduling with an apartment type but no apartment id, when no unit
of that type is available, still creates the booking with a null unit
reference and reports success with a null unit-details payload. -/
theorem tour_without_available_unit (db : MockDatabase) (st : SessionState)
    (args : TourArgs) (tomorrow next_week uid ft : PyStr)
    (hu : st.current_user_id = some uid) (hune : uid ≠ [])
    (hai : args.apartment_id = none)
    (hat : truthyOS args.apartment_type = true)
    (hempty : get_available_apartments db args.apartment_type none = [])
    (htime : formatTourTime args.tour_time = some ft) :
    ∃ tid : Int, 0 < tid ∧
      (schedule_property_tour db st args tomorrow next_week).1
        = TourResult.success tid (formatTourDate args.tour_date tomorrow next_week) ft
            args.is_virtual none ∧
      (schedule_property_tour db st args tomorrow next_week).2.1.tours
        = db.tours ++ [⟨tid, uid, formatTourDate args.tour_date tomorrow next_week, ft,
                        none, args.is_virtual, pys "Scheduled", args.notes⟩] := by
  have htr : truthyOS (some uid) = true := truthyOS_some hune
  have htid : (0 : Int) < (db.tours.foldl (fun m t => max m t.id) 0) + 1 :=
    lt_of_le_of_lt (le_foldl_max_tour db.tours 0) (lt_add_one _)
  refine ⟨(db.tours.foldl (fun m t => max m t.id) 0) + 1, htid, ?_, ?_⟩ <;>
    simp only [schedule_property_tour, htr, Bool.not_true, Bool.false_eq_true, if_false,
               htime, hai, truthyOI, Bool.not_false, Bool.true_and, hat, hempty,
               schedule_tour, hu, Option.getD_some, if_pos htid] <;>
    rfl

/-- Witness for C9: the seed store has no available "3_bedroom" unit. -/
theorem tour_without_available_unit_witness :
    ∃ tid : Int, 0 < tid ∧
      (schedule_property_tour seedDb sessionW tourArgsW
          (pys "2025-06-29") (pys "2025-07-05")).1
        = TourResult.success tid
            (formatTourDate tourArgsW.tour_date (pys "2025-06-29") (pys "2025-07-05"))
            (pys "10:00") tourArgsW.is_virtual none ∧
      (schedule_property_tour seedDb sessionW tourArgsW
          (pys "2025-06-29") (pys "2025-07-05")).2.1.tours
        = seedDb.tours ++ [⟨tid, pys "u1",
            formatTourDate tourArgsW.tour_date (pys "2025-06-29") (pys "2025-07-05"),
            pys "10:00", none, tourArgsW.is_virtual, pys "Scheduled", tourArgsW.notes⟩] :=
  tour_without_available_unit seedDb sessionW tourArgsW (pys "2025-06-29")
    (pys "2025-07-05") (pys "u1") (pys "10:00") rfl (by decide) rfl (by decide)
    (by decide) (by decide)

/-- C8: a move-in literal other than "july"/"august" (case-insensitively) is
silently discarded by the prospect-management tool: the date lookup yields
`none`, the created record stores a null move-in date (so create-then-read
returns null), the update branch's field set omits `move_in_date`, and yet
the session snapshot written on create keeps the original unconverted
literal. -/
theorem move_in_literal_discarded (db : MockDatabase) (st : SessionState)
    (args : ManageArgs) (fresh_id now s : PyStr)
    (hs : args.move_in_date = some s)
    (hjuly : pyLower s ≠ pys "july") (haug : pyLower s ≠ pys "august")
    (hact : args.action = pys "create")
    (hfid : fresh_id ≠ [])
    (hfresh : ∀ r ∈ db.users, r.user_id ≠ fresh_id) :
    formatMoveInDate args.move_in_date = none ∧
    (manage_user db st args fresh_id now).2.2.user_info
      = some ⟨some fresh_id, args.name, args.phone, args.email, some s, none,
              args.preferred_apartment_type, args.has_pets, none, none, none,
              none, none⟩ ∧
    get_user (manage_user db st args fresh_id now).2.1 fresh_id
      = some ⟨fresh_id, args.name, args.phone, args.email, none,
              args.preferred_apartment_type, args.has_pets, none, none, none,
              now, some now⟩ ∧
    (buildUpdateFields args (formatMoveInDate args.move_in_date)).move_in_date = none := by
  have hfmt : formatMoveInDate args.move_in_date = none := by
    rw [hs]
    simp [formatMoveInDate, hjuly, haug]
  have hbody : manage_user db st args fresh_id now
      = (ManageResult.createSuccess fresh_id (pys "User created successfully"),
         (create_user db fresh_id now
           ⟨args.name, args.phone, args.email, none,
            args.preferred_apartment_type, args.has_pets⟩).2,
         ⟨some fresh_id,
          some ⟨some fresh_id, args.name, args.phone, args.email, args.move_in_date,
                none, args.preferred_apartment_type, args.has_pets,
                none, none, none, none, none⟩,
          st.last_apartment_search, st.last_scheduled_tour⟩) := by
    simp only [manage_user, hact, hfmt, create_user, isEmpty_false_of_ne_nil hfid,
               Bool.not_false, if_true]
    rfl
  refine ⟨hfmt, ?_, ?_, ?_⟩
  · rw [hbody, hs]
  · rw [hbody]
    exact get_user_create_fresh db fresh_id now
      ⟨args.name, args.phone, args.email, none, args.preferred_apartment_type,
       args.has_pets⟩ hfresh
  · rw [hfmt]
    rfl

/-- Witness for C8 with the literal "September" on the seed store. -/
theorem move_in_literal_discarded_witness :
    formatMoveInDate maW.move_in_date = none ∧
    (manage_user seedDb emptySession maW (pys "u-1") (pys "t0")).2.2.user_info
      = some ⟨some (pys "u-1"), maW.name, maW.phone, maW.email, some (pys "September"),
              none, maW.preferred_apartment_type, maW.has_pets, none, none, none,
              none, none⟩ ∧
    get_user (manage_user seedDb emptySession maW (pys "u-1") (pys "t0")).2.1 (pys "u-1")
      = some ⟨pys "u-1", maW.name, maW.phone, maW.email, none,
              maW.preferred_apartment_type, maW.has_pets, none, none, none,
              pys "t0", some (pys "t0")⟩ ∧
    (buildUpdateFields maW (formatMoveInDate maW.move_in_date)).move_in_date = none :=
  move_in_literal_discarded seedDb emptySession maW (pys "u-1") (pys "t0")
    (pys "September") rfl (by decide) (by decide) rfl (by decide) (by simp [seedDb])

theorem aggFor_one_bedroom :
    aggFor [apt101, apt102, apt103, apt201] = ⟨1600, 1650, 1625, 4⟩ := by
  simp only [aggFor, apt101, apt102, apt103, apt201, List.map_cons, List.map_nil,
             List.foldl_cons, List.foldl_nil, List.sum_cons, List.sum_nil,
             List.length_cons, List.length_nil, PricingEntry.mk.injEq]
  refine ⟨by norm_num [min_def], by norm_num [max_def], by norm_num, trivial⟩

theorem aggFor_two_bedroom :
    aggFor [apt301, apt302, apt401, apt402] = ⟨2100, 2200, 2150, 4⟩ := by
  simp only [aggFor, apt301, apt302, apt401, apt402, List.map_cons, List.map_nil,
             List.foldl_cons, List.foldl_nil, List.sum_cons, List.sum_nil,
             List.length_cons, List.length_nil, PricingEntry.mk.injEq]
  refine ⟨by norm_num [min_def], by norm_num [max_def], by norm_num, trivial⟩

theorem get_pricing_info_seed_groups :
    get_pricing_info seedDb none
      = [(pys "1_bedroom", aggFor [apt101, apt102, apt103, apt201]),
         (pys "2_bedroom", aggFor [apt301, apt302, apt401, apt402])] := by
  have hrows : seedDb.apartments.filter (fun a =>
      match (none : Option PyStr) with
      | none => true
      | some t => if t.isEmpty then true else a.apartment_type == t)
      = [apt101, apt102, apt103, apt201, apt301, apt302, apt401, apt402] := by decide
  have htypes : dedupGo []
      ([apt101, apt102, apt103, apt201, apt301, apt302, apt401, apt402].map
        Apartment.apartment_type) = [pys "1_bedroom", pys "2_bedroom"] := by decide
  have hg1 : [apt101, apt102, apt103, apt201, apt301, apt302, apt401,
      apt402].filter (fun a => a.apartment_type == pys "1_bedroom")
      = [apt101, apt102, apt103, apt201] := by decide
  have hg2 : [apt101, apt102, apt103, apt201, apt301, apt302, apt401,
      apt402].filter (fun a => a.apartment_type == pys "2_bedroom")
      = [apt301, apt302, apt401, apt402] := by decide
  simp only [get_pricing_info]
  rw [hrows, htypes]
  simp only [List.map_cons, List.map_nil]
  rw [hg1, hg2]

/-- C5: the pricing summary aggregates over ALL units of a type regardless of
availability: on the seed data it reports min 1600 / max 1650 over 4
one-bedroom rows and min 2100 / max 2200 over 4 two-bedroom rows (although
only 2 one-bedroom units are available), each type's count equals the number
of seed rows of that type, and min ≤ mean ≤ max holds for every type
present. -/
theorem pricing_summary_seed :
    get_pricing_info seedDb none
      = [(pys "1_bedroom", ⟨1600, 1650, 1625, 4⟩),
         (pys "2_bedroom", ⟨2100, 2200, 2150, 4⟩)] ∧
    seedDb.apartments.countP (fun a => a.apartment_type == pys "1_bedroom") = 4 ∧
    seedDb.apartments.countP (fun a => a.apartment_type == pys "2_bedroom") = 4 ∧
    (seedDb.apartments.filter
        (fun a => a.is_available && (a.apartment_type == pys "1_bedroom"))).length = 2 ∧
    (∀ p ∈ get_pricing_info seedDb none,
        p.2.min_rent ≤ p.2.avg_rent ∧ p.2.avg_rent ≤ p.2.max_rent ∧
        p.2.count = seedDb.apartments.countP (fun a => a.apartment_type == p.1)) := by
  have hmain : get_pricing_info seedDb none
      = [(pys "1_bedroom", ⟨1600, 1650, 1625, 4⟩),
         (pys "2_bedroom", ⟨2100, 2200, 2150, 4⟩)] := by
    rw [get_pricing_info_seed_groups, aggFor_one_bedroom, aggFor_two_bedroom]
  refine ⟨hmain, by decide, by decide, by decide, ?_⟩
  rw [hmain]
  intro p hp
  rcases List.mem_pair.mp hp with h | h <;> subst h <;>
    exact ⟨by decide, by decide, by decide⟩
